import Mathlib

set_option maxRecDepth 4000

/- Shallow embedding of the mychardev character-device driver.  The
repository holds two near-duplicate variants of the same driver:
src/mychardev.c (functions dev_read, dev_write, dev_poll, dev_ioctl over
globals dev_buf, dev_buf_size, data_available) and a second file
(functions device_read, device_write, device_poll, device_ioctl over
globals device_buffer, device_buffer_size, data_available).  The global
mutable state is modelled as an explicit `Store` record threaded through
every operation; the per-open-session read cursor (the `loff_t*` the
kernel passes) is an extra `Nat` argument returned updated; the
user/kernel memory-transfer primitives (copy_to_user, copy_from_user) and
interruptible mutex acquisition are modelled as Boolean oracles `fault`
and `intr` telling whether that external collaborator fails during the
call. -/

/-- Fixed buffer capacity: DEV_BUF_LEN in src/mychardev.c, BUF_LEN in the
second variant; both are 256. -/
def BUF_LEN : Nat := 256

/-- POLLIN readiness bit (0x001). -/
def POLLIN : Nat := 1

/-- POLLRDNORM readiness bit (0x040). -/
def POLLRDNORM : Nat := 64

/-- Numeric value of the reset command _IO(IOCTL_MAGIC, 0) with
IOCTL_MAGIC = the character k (0x6b): 0x6b00 = 27392.  Called
IOCTL_RESET_BUF in src/mychardev.c and IOCTL_RESET_BUFFER in the second
variant. -/
def IOCTL_RESET_BUFFER : Nat := 27392

/-- Error returns of the driver operations: -ERESTARTSYS (interrupted
mutex acquisition), -EFAULT (failed user-memory transfer), -EINVAL
(oversized write, or unknown ioctl command). -/
inductive DevErr where
  | interrupted
  | faultError
  | invalidArgument
  deriving DecidableEq

/-- The driver's shared global state: the byte buffer (dev_buf /
device_buffer, a 256-byte array in the source, bytes modelled as Nat),
the logical length (dev_buf_size / device_buffer_size) and the readiness
flag (data_available, an int used as a Boolean). -/
structure Store where
  buf : List Nat
  size : Nat
  avail : Bool
  deriving DecidableEq

/-- State at module load: a zero-filled static buffer, dev_buf_size = 0,
data_available = 0. -/
def initStore : Store :=
  { buf := List.replicate BUF_LEN 0, size := 0, avail := false }

deriving instance DecidableEq for Except

/-- Result of a read call: the ssize_t return (error, or the bytes
delivered to the caller whose count is the returned ssize_t), the store
after the call, and the session offset after the call. -/
structure ReadRes where
  ret : Except DevErr (List Nat)
  store : Store
  off : Nat
  deriving DecidableEq

/-- Result of a write call: the ssize_t return (error, or the count
written) and the store after the call. -/
structure WriteRes where
  ret : Except DevErr Nat
  store : Store
  deriving DecidableEq

/-- dev_read from src/mychardev.c lines 55-90.  Note the source passes
dev_buf (the start of the buffer), not dev_buf + *dev_offset, to
copy_to_user, so the delivered bytes are taken from index 0. -/
def dev_read (s : Store) (dev_offset : Nat) (amt_to_copy : Nat)
    (intr : Bool) (fault : Bool) : ReadRes :=
  if dev_offset ≥ s.size then
    ⟨.ok [], s, dev_offset⟩
  else if intr then
    ⟨.error .interrupted, s, dev_offset⟩
  else
    let amt_data_remaining := s.size - dev_offset
    let amt_to_copy :=
      if amt_to_copy > amt_data_remaining then amt_data_remaining else amt_to_copy
    if fault then
      ⟨.error .faultError, s, dev_offset⟩
    else
      ⟨.ok (s.buf.take amt_to_copy), { s with avail := false },
        dev_offset + amt_to_copy⟩

/-- device_read from the second variant, lines 43-77.  It passes
device_buffer + *device_buffer_offset to copy_to_user, so the delivered
bytes start at the session offset. -/
def device_read (s : Store) (device_buffer_offset : Nat)
    (amount_to_read : Nat) (intr : Bool) (fault : Bool) : ReadRes :=
  if device_buffer_offset ≥ s.size then
    ⟨.ok [], s, device_buffer_offset⟩
  else if intr then
    ⟨.error .interrupted, s, device_buffer_offset⟩
  else
    let remaining_dev_buffer_space := s.size - device_buffer_offset
    let amount_to_read :=
      if amount_to_read > remaining_dev_buffer_space then
        remaining_dev_buffer_space
      else amount_to_read
    if fault then
      ⟨.error .faultError, s, device_buffer_offset⟩
    else
      ⟨.ok ((s.buf.drop device_buffer_offset).take amount_to_read),
        { s with avail := false },
        device_buffer_offset + amount_to_read⟩

/-- dev_write from src/mychardev.c lines 97-121.  The guard compares the
request against dev_buf_size (the current logical length), not against
DEV_BUF_LEN; copy_from_user overwrites the first amt bytes of dev_buf. -/
def dev_write (s : Store) (user_buf : List Nat)
    (intr : Bool) (fault : Bool) : WriteRes :=
  if user_buf.length > s.size then
    ⟨.error .invalidArgument, s⟩
  else if intr then
    ⟨.error .interrupted, s⟩
  else if fault then
    ⟨.error .faultError, s⟩
  else
    ⟨.ok user_buf.length,
      { buf := user_buf ++ s.buf.drop user_buf.length,
        size := user_buf.length, avail := true }⟩

/-- device_write from the second variant, lines 79-106.  The guard
compares the request against the capacity BUF_LEN = 256. -/
def device_write (s : Store) (user_buffer : List Nat)
    (intr : Bool) (fault : Bool) : WriteRes :=
  if user_buffer.length > BUF_LEN then
    ⟨.error .invalidArgument, s⟩
  else if intr then
    ⟨.error .interrupted, s⟩
  else if fault then
    ⟨.error .faultError, s⟩
  else
    ⟨.ok user_buffer.length,
      { buf := user_buffer ++ s.buf.drop user_buffer.length,
        size := user_buffer.length, avail := true }⟩

/-- dev_poll from src/mychardev.c lines 127-135: builds the mask from 0,
setting POLLIN and POLLRDNORM when data_available; reads but never
writes the globals. -/
def dev_poll (s : Store) : Nat × Store :=
  let mask : Nat := 0
  let mask := if s.avail then mask ||| POLLIN ||| POLLRDNORM else mask
  (mask, s)

/-- device_poll from the second variant, lines 125-135: identical
behaviour. -/
def device_poll (s : Store) : Nat × Store :=
  let mask : Nat := 0
  let mask := if s.avail then mask ||| POLLIN ||| POLLRDNORM else mask
  (mask, s)

/-- dev_ioctl from src/mychardev.c lines 141-155: on IOCTL_RESET_BUF it
does memset(dev_buf, 0, DEV_BUF_LEN), dev_buf_size = 0,
data_available = 0 and returns 0; any other command returns -EINVAL. -/
def dev_ioctl (s : Store) (cmd : Nat) : Except DevErr Nat × Store :=
  if cmd = IOCTL_RESET_BUFFER then
    (.ok 0, { buf := List.replicate BUF_LEN 0, size := 0, avail := false })
  else
    (.error .invalidArgument, s)

/-- device_ioctl from the second variant, lines 108-123: identical
behaviour. -/
def device_ioctl (s : Store) (cmd : Nat) : Except DevErr Nat × Store :=
  if cmd = IOCTL_RESET_BUFFER then
    (.ok 0, { buf := List.replicate BUF_LEN 0, size := 0, avail := false })
  else
    (.error .invalidArgument, s)

/-- One operation of the driver interface, as invoked through the
file_operations table: open/release (no store effect), read at some
session offset, write, poll, ioctl.  The oracles for mutex interruption
and transfer fault are part of the operation. -/
inductive Op where
  | opOpen
  | opRead (off amt : Nat) (intr fault : Bool)
  | opWrite (b : List Nat) (intr fault : Bool)
  | opPoll
  | opIoctl (cmd : Nat)
  deriving DecidableEq

/-- Effect of one operation on the shared store, second (device_*)
variant. -/
def stepStore (s : Store) : Op → Store
  | .opOpen => s
  | .opRead off amt intr fault => (device_read s off amt intr fault).store
  | .opWrite b intr fault => (device_write s b intr fault).store
  | .opPoll => (device_poll s).2
  | .opIoctl cmd => (device_ioctl s cmd).2

/-- Run a sequence of operations from a store, second variant. -/
def runOps (s : Store) (ops : List Op) : Store :=
  ops.foldl stepStore s

/-- Store reachable from the initial state by some operation sequence,
second variant. -/
def Reachable (s : Store) : Prop :=
  ∃ ops : List Op, runOps initStore ops = s

/-- Effect of one operation on the shared store, src/mychardev.c
variant. -/
def stepStoreDev (s : Store) : Op → Store
  | .opOpen => s
  | .opRead off amt intr fault => (dev_read s off amt intr fault).store
  | .opWrite b intr fault => (dev_write s b intr fault).store
  | .opPoll => (dev_poll s).2
  | .opIoctl cmd => (dev_ioctl s cmd).2

/-- Run a sequence of operations from a store, src/mychardev.c
variant. -/
def runOpsDev (s : Store) (ops : List Op) : Store :=
  ops.foldl stepStoreDev s

/-- Store reachable from the initial state by some operation sequence,
src/mychardev.c variant. -/
def ReachableDev (s : Store) : Prop :=
  ∃ ops : List Op, runOpsDev initStore ops = s

/-- An operation whose write payload (if it is a write) is non-empty. -/
def goodOp : Op → Bool
  | .opWrite b _ _ => decide (0 < b.length)
  | _ => true

/-- Store reachable from the initial state by operation sequences in
which every write has a non-empty payload, second variant. -/
def ReachableNE (s : Store) : Prop :=
  ∃ ops : List Op, (∀ op ∈ ops, goodOp op = true) ∧ runOps initStore ops = s

example :
    (device_write initStore [1, 2, 3] false false).ret = .ok 3 := by decide

example :
    (dev_write initStore [1, 2, 3] false false).ret =
      .error .invalidArgument := by decide

example :
    (device_read ⟨[5, 6, 7], 3, true⟩ 1 5 false false).ret = .ok [6, 7] := by
  decide

example :
    (dev_read ⟨[5, 6, 7], 3, true⟩ 1 5 false false).ret = .ok [5, 6] := by
  decide

example : (runOps initStore [Op.opWrite [] false false]).avail = true := by
  decide

lemma device_read_at_end (s : Store) (off maxLen : Nat) (intr fault : Bool)
    (h : s.size ≤ off) :
    device_read s off maxLen intr fault = ⟨.ok [], s, off⟩ := by
  simp [device_read, h]

lemma dev_read_at_end (s : Store) (off maxLen : Nat) (intr fault : Bool)
    (h : s.size ≤ off) :
    dev_read s off maxLen intr fault = ⟨.ok [], s, off⟩ := by
  simp [dev_read, h]

lemma device_read_spec (s : Store) (off maxLen : Nat) (h : off < s.size) :
    device_read s off maxLen false false =
      ⟨.ok ((s.buf.drop off).take (min maxLen (s.size - off))),
        { s with avail := false }, off + min maxLen (s.size - off)⟩ := by
  have hmin : (if maxLen > s.size - off then s.size - off else maxLen) =
      min maxLen (s.size - off) := by split <;> omega
  simp only [device_read, hmin]
  rw [if_neg (by omega)]
  simp

lemma dev_read_spec (s : Store) (off maxLen : Nat) (h : off < s.size) :
    dev_read s off maxLen false false =
      ⟨.ok (s.buf.take (min maxLen (s.size - off))),
        { s with avail := false }, off + min maxLen (s.size - off)⟩ := by
  have hmin : (if maxLen > s.size - off then s.size - off else maxLen) =
      min maxLen (s.size - off) := by split <;> omega
  simp only [dev_read, hmin]
  rw [if_neg (by omega)]
  simp

lemma device_write_spec (s : Store) (b : List Nat) (hb : b.length ≤ BUF_LEN) :
    device_write s b false false =
      ⟨.ok b.length,
        { buf := b ++ s.buf.drop b.length, size := b.length, avail := true }⟩ := by
  simp only [device_write]
  rw [if_neg (by omega)]
  simp

lemma dev_write_spec (s : Store) (b : List Nat) (hb : b.length ≤ s.size) :
    dev_write s b false false =
      ⟨.ok b.length,
        { buf := b ++ s.buf.drop b.length, size := b.length, avail := true }⟩ := by
  simp only [dev_write]
  rw [if_neg (by omega)]
  simp

/-- C1: for every byte sequence b with length at most the capacity 256
and every starting state, a successful write of b followed by a read at
session offset 0 with max_len = length of b returns exactly the bytes b.
Proved for the device_write/device_read variant unconditionally, and for
the src/mychardev.c dev_write/dev_read variant whenever its write
succeeds (its guard additionally requires length b ≤ current
dev_buf_size). -/
theorem C1_write_then_read_roundtrip (s : Store) (b : List Nat)
    (hb : b.length ≤ BUF_LEN) :
    (device_write s b false false).ret = .ok b.length ∧
    (device_read (device_write s b false false).store 0 b.length
        false false).ret = .ok b ∧
    (b.length ≤ s.size →
      (dev_write s b false false).ret = .ok b.length ∧
      (dev_read (dev_write s b false false).store 0 b.length
          false false).ret = .ok b) := by
  rw [device_write_spec s b hb]
  refine ⟨rfl, ?_, fun hs => ?_⟩
  · rcases Nat.eq_zero_or_pos b.length with h0 | hpos
    · have hb0 : b = [] := List.length_eq_zero.mp h0
      subst hb0
      rw [device_read_at_end _ _ _ _ _ (by simp)]
    · rw [device_read_spec _ _ _ (by simpa using hpos)]
      simp [List.take_left]
  · rw [dev_write_spec s b hs]
    refine ⟨rfl, ?_⟩
    rcases Nat.eq_zero_or_pos b.length with h0 | hpos
    · have hb0 : b = [] := List.length_eq_zero.mp h0
      subst hb0
      rw [dev_read_at_end _ _ _ _ _ (by simp)]
    · rw [dev_read_spec _ _ _ (by simpa using hpos)]
      simp [List.take_left]

/-- C1 witness: a concrete run of the round trip from a store holding
three stale bytes, for both variants. -/
theorem C1_witness :
    (device_write ⟨[9, 9, 9], 3, false⟩ [1, 2] false false).ret = .ok 2 ∧
    (device_read (device_write ⟨[9, 9, 9], 3, false⟩ [1, 2] false false).store
        0 2 false false).ret = .ok [1, 2] ∧
    ((dev_write ⟨[9, 9, 9], 3, false⟩ [1, 2] false false).ret = .ok 2 ∧
      (dev_read (dev_write ⟨[9, 9, 9], 3, false⟩ [1, 2] false false).store
          0 2 false false).ret = .ok [1, 2]) := by
  have h := C1_write_then_read_roundtrip ⟨[9, 9, 9], 3, false⟩ [1, 2]
    (by decide)
  exact ⟨h.1, h.2.1, h.2.2 (by decide)⟩

/-- C2: a read whose session offset is at or past the current length
returns zero bytes immediately and changes no state; otherwise, absent
interruption and transfer fault, it returns exactly
min(max_len, length - offset) bytes taken from the buffer starting at
the session offset and advances the session offset by exactly that
count.  Proved for the device_read variant on any state whose logical
length is within the buffer; in the src/mychardev.c variant every
reachable state has dev_buf_size = 0, and the last conjunct shows every
dev_read call on such a state returns zero bytes with no state change. -/
theorem C2_read_contract (s : Store) (off maxLen : Nat) (intr fault : Bool)
    (hwf : s.size ≤ s.buf.length) :
    (s.size ≤ off → device_read s off maxLen intr fault = ⟨.ok [], s, off⟩) ∧
    (off < s.size →
      device_read s off maxLen false false =
        ⟨.ok ((s.buf.drop off).take (min maxLen (s.size - off))),
          { s with avail := false }, off + min maxLen (s.size - off)⟩ ∧
      ((s.buf.drop off).take (min maxLen (s.size - off))).length =
        min maxLen (s.size - off)) ∧
    (s.size = 0 → dev_read s off maxLen intr fault = ⟨.ok [], s, off⟩) := by
  refine ⟨fun h => device_read_at_end s off maxLen intr fault h, fun h => ?_,
    fun h => dev_read_at_end s off maxLen intr fault (by omega)⟩
  refine ⟨device_read_spec s off maxLen h, ?_⟩
  simp only [List.length_take, List.length_drop]
  omega

/-- C2 witness: a concrete in-range read consuming two of the three
stored bytes starting at offset 1. -/
theorem C2_witness :
    device_read ⟨[5, 6, 7], 3, true⟩ 1 5 false false =
      ⟨.ok [6, 7], ⟨[5, 6, 7], 3, false⟩, 3⟩ :=
  ((C2_read_contract ⟨[5, 6, 7], 3, true⟩ 1 5 false false (by decide)).2.1
    (by decide)).1

/-- C3: the claim states write(b) fails with InvalidArgument exactly when
length b exceeds the capacity 256 and otherwise succeeds.  The
device_write variant does this, but dev_write in src/mychardev.c
compares the request against dev_buf_size (current logical length,
initially 0) instead of DEV_BUF_LEN, contradicting its own comment that
the amount "should not exceed the total dev_buffer_len": at the initial
state a one-byte write, far below the capacity, is rejected with
-EINVAL while the other variant accepts it. -/
theorem C3_dev_write_guard_bug :
    ([7] : List Nat).length ≤ BUF_LEN ∧
    (dev_write initStore [7] false false).ret = .error .invalidArgument ∧
    (dev_write initStore [7] false false).store = initStore ∧
    (device_write initStore [7] false false).ret = .ok 1 ∧
    (device_write initStore [7] false false).store.size = 1 ∧
    (device_write initStore [7] false false).store.avail = true := by
  refine ⟨by decide, rfl, rfl, rfl, rfl, rfl⟩

/-- C4 counterexample: the state reached from the initial state by a
single successful zero-byte write has the availability flag set while
the length is 0, refuting the claimed invariant (device_write and
dev_write both accept a zero-byte request, set data_available = 1 and
set the size to 0). -/
theorem C4_counterexample :
    Reachable ⟨List.replicate BUF_LEN 0, 0, true⟩ ∧
    ¬ (0 < (⟨List.replicate BUF_LEN 0, 0, true⟩ : Store).size) :=
  ⟨⟨[Op.opWrite [] false false], by decide⟩, by decide⟩

lemma stepStore_avail_inv (s : Store) (op : Op) (hop : goodOp op = true)
    (h : s.avail = true → 0 < s.size) :
    (stepStore s op).avail = true → 0 < (stepStore s op).size := by
  cases op with
  | opOpen => exact h
  | opRead off amt intr fault =>
      simp only [stepStore, device_read]
      split
      · exact h
      · split
        · exact h
        · split
          · exact h
          · intro hav
            simp at hav
  | opWrite b intr fault =>
      simp only [stepStore, device_write]
      split
      · exact h
      · split
        · exact h
        · split
          · exact h
          · intro _
            simpa [goodOp] using hop
  | opPoll => exact h
  | opIoctl cmd =>
      simp only [stepStore, device_ioctl]
      split
      · intro hav
        simp at hav
      · exact h

lemma runOps_avail_inv (ops : List Op) :
    ∀ s : Store, (∀ op ∈ ops, goodOp op = true) →
      (s.avail = true → 0 < s.size) →
      ((runOps s ops).avail = true → 0 < (runOps s ops).size) := by
  induction ops with
  | nil => intro s _ h; exact h
  | cons op ops ih =>
      intro s hops h
      have hstep := stepStore_avail_inv s op (hops op (by simp)) h
      simpa [runOps, List.foldl_cons] using
        ih (stepStore s op) (fun o ho => hops o (by simp [ho])) hstep

/-- C4 amended: in every state reachable from the initial state by
sequences of open, read, write, poll and reset operations in which every
write carries a non-empty payload, the availability flag being true
implies length > 0 (the unrestricted claim fails because a zero-byte
write sets the flag while leaving the length 0). -/
theorem C4_amended_invariant (s : Store) (h : ReachableNE s) :
    s.avail = true → 0 < s.size := by
  obtain ⟨ops, hops, rfl⟩ := h
  refine runOps_avail_inv ops initStore hops ?_
  intro hav
  simp [initStore] at hav

/-- C4 witness: the amended invariant evaluated after one non-empty
write. -/
theorem C4_witness :
    0 < (runOps initStore [Op.opWrite [1] false false]).size :=
  C4_amended_invariant (runOps initStore [Op.opWrite [1] false false])
    ⟨[Op.opWrite [1] false false], by decide, rfl⟩ (by decide)

lemma device_write_ok_avail (s : Store) (b : List Nat) (intr fault : Bool)
    (n : Nat) (h : (device_write s b intr fault).ret = .ok n) :
    (device_write s b intr fault).store.avail = true := by
  simp only [device_write] at h ⊢
  split at h
  · simp_all
  · split at h
    · simp_all
    · split at h
      · simp_all
      · simp_all
        rw [if_neg (by omega)]

lemma device_read_ok_avail (s : Store) (off maxLen : Nat) (intr fault : Bool)
    (bytes : List Nat)
    (h : (device_read s off maxLen intr fault).ret = .ok bytes)
    (hn : 0 < bytes.length) :
    (device_read s off maxLen intr fault).store.avail = false := by
  simp only [device_read] at h ⊢
  split at h
  · simp_all
  · split at h
    · simp_all
    · split at h
      · simp_all
      · simp_all
        rw [if_neg (by omega)]

/-- C5: after every successful write data_available is set, so poll
reports the readable bits; after every read that delivers at least one
byte data_available is cleared, so poll reports no readiness — the
eager-clear policy, which holds even when unread bytes remain relative
to the session offset. -/
theorem C5_eager_clear_poll (s s2 : Store) (b bytes : List Nat)
    (intr fault i2 f2 : Bool) (off maxLen n : Nat)
    (hw : (device_write s b intr fault).ret = .ok n)
    (hr : (device_read s2 off maxLen i2 f2).ret = .ok bytes)
    (hn : 0 < bytes.length) :
    (device_poll (device_write s b intr fault).store).1 =
      POLLIN ||| POLLRDNORM ∧
    (device_poll (device_read s2 off maxLen i2 f2).store).1 = 0 := by
  constructor
  · simp [device_poll, device_write_ok_avail s b intr fault n hw]
  · simp [device_poll, device_read_ok_avail s2 off maxLen i2 f2 bytes hr hn]

/-- C5 witness: a write of one byte makes poll readable; a read of one
of three stored bytes clears readiness although two bytes remain
unread. -/
theorem C5_witness :
    (device_poll (device_write initStore [1] false false).store).1 =
      POLLIN ||| POLLRDNORM ∧
    (device_poll (device_read ⟨[5, 6, 7], 3, true⟩ 0 1 false false).store).1 =
      0 :=
  C5_eager_clear_poll initStore ⟨[5, 6, 7], 3, true⟩ [1] [5]
    false false false false 0 1 1 (by decide) (by decide) (by decide)

/-- C6: poll computes its mask from data_available alone — the POLLIN
bit (bit 0) and the POLLRDNORM bit (bit 6) are set exactly when the
flag is true — and returns the store unchanged: it never clears the
flag.  Both variants behave identically. -/
theorem C6_poll_reports_flag (s : Store) :
    device_poll s = (if s.avail then POLLIN ||| POLLRDNORM else 0, s) ∧
    dev_poll s = (if s.avail then POLLIN ||| POLLRDNORM else 0, s) ∧
    (device_poll s).1.testBit 0 = s.avail ∧
    (device_poll s).1.testBit 6 = s.avail ∧
    (device_poll s).2 = s ∧
    (dev_poll s).2 = s := by
  obtain ⟨buf, size, avail⟩ := s
  cases avail
  · simp [device_poll, dev_poll, POLLIN, POLLRDNORM]
  · simp [device_poll, dev_poll, POLLIN, POLLRDNORM]
    decide

/-- C7: the reset command zeroes every byte of the buffer (memset over
the full DEV_BUF_LEN), sets the length to 0, clears data_available and
returns 0, in both variants; and it is idempotent: a second reset with
no intervening write produces the identical observable result. -/
theorem C7_reset_idempotent (s : Store) :
    (device_ioctl s IOCTL_RESET_BUFFER).2.buf = List.replicate BUF_LEN 0 ∧
    (device_ioctl s IOCTL_RESET_BUFFER).2.size = 0 ∧
    (device_ioctl s IOCTL_RESET_BUFFER).2.avail = false ∧
    (device_ioctl s IOCTL_RESET_BUFFER).1 = .ok 0 ∧
    device_ioctl (device_ioctl s IOCTL_RESET_BUFFER).2 IOCTL_RESET_BUFFER =
      device_ioctl s IOCTL_RESET_BUFFER ∧
    (dev_ioctl s IOCTL_RESET_BUFFER).2.buf = List.replicate BUF_LEN 0 ∧
    (dev_ioctl s IOCTL_RESET_BUFFER).2.size = 0 ∧
    (dev_ioctl s IOCTL_RESET_BUFFER).2.avail = false ∧
    (dev_ioctl s IOCTL_RESET_BUFFER).1 = .ok 0 ∧
    dev_ioctl (dev_ioctl s IOCTL_RESET_BUFFER).2 IOCTL_RESET_BUFFER =
      dev_ioctl s IOCTL_RESET_BUFFER :=
  ⟨rfl, rfl, rfl, rfl, rfl, rfl, rfl, rfl, rfl, rfl⟩

/-- C8: when the user-memory transfer fails on a call that reaches it
(read with offset inside the data, write within the accepted size), the
call returns -EFAULT and no field changes: buffer, length, flag and the
session offset are returned exactly as they were.  Both variants. -/
theorem C8_fault_leaves_state (s : Store) (off maxLen : Nat) (b : List Nat)
    (hoff : off < s.size) (hb : b.length ≤ BUF_LEN)
    (hb2 : b.length ≤ s.size) :
    device_read s off maxLen false true = ⟨.error .faultError, s, off⟩ ∧
    device_write s b false true = ⟨.error .faultError, s⟩ ∧
    dev_read s off maxLen false true = ⟨.error .faultError, s, off⟩ ∧
    dev_write s b false true = ⟨.error .faultError, s⟩ := by
  refine ⟨?_, ?_, ?_, ?_⟩
  · simp only [device_read]
    rw [if_neg (by omega)]
    simp
  · simp only [device_write]
    rw [if_neg (by omega)]
    simp
  · simp only [dev_read]
    rw [if_neg (by omega)]
    simp
  · simp only [dev_write]
    rw [if_neg (by omega)]
    simp

/-- C8 witness: concrete faulting transfers on a two-byte store. -/
theorem C8_witness :
    device_read ⟨[5, 6], 2, true⟩ 0 1 false true =
      ⟨.error .faultError, ⟨[5, 6], 2, true⟩, 0⟩ ∧
    device_write ⟨[5, 6], 2, true⟩ [9] false true =
      ⟨.error .faultError, ⟨[5, 6], 2, true⟩⟩ ∧
    dev_read ⟨[5, 6], 2, true⟩ 0 1 false true =
      ⟨.error .faultError, ⟨[5, 6], 2, true⟩, 0⟩ ∧
    dev_write ⟨[5, 6], 2, true⟩ [9] false true =
      ⟨.error .faultError, ⟨[5, 6], 2, true⟩⟩ :=
  C8_fault_leaves_state ⟨[5, 6], 2, true⟩ 0 1 [9] (by decide) (by decide)
    (by decide)

/-- C10: a read with max_len = 0 while the session offset is strictly
inside the data returns zero bytes, leaves buffer, length and offset
unchanged, yet still clears data_available, so a subsequent poll reports
no readiness although all data remains unread.  Both variants. -/
theorem C10_zero_length_read_clears_flag (s : Store) (off : Nat)
    (h : off < s.size) :
    device_read s off 0 false false =
      ⟨.ok [], { s with avail := false }, off⟩ ∧
    dev_read s off 0 false false =
      ⟨.ok [], { s with avail := false }, off⟩ ∧
    (device_poll { s with avail := false }).1 = 0 ∧
    (dev_poll { s with avail := false }).1 = 0 := by
  refine ⟨?_, ?_, by simp [device_poll], by simp [dev_poll]⟩
  · simpa using device_read_spec s off 0 h
  · simpa using dev_read_spec s off 0 h

/-- C10 witness: a zero-length read on a one-byte store with offset 0. -/
theorem C10_witness :
    device_read ⟨[5], 1, true⟩ 0 0 false false =
      ⟨.ok [], ⟨[5], 1, false⟩, 0⟩ ∧
    dev_read ⟨[5], 1, true⟩ 0 0 false false =
      ⟨.ok [], ⟨[5], 1, false⟩, 0⟩ ∧
    (device_poll ⟨[5], 1, false⟩).1 = 0 ∧
    (dev_poll ⟨[5], 1, false⟩).1 = 0 :=
  C10_zero_length_read_clears_flag ⟨[5], 1, true⟩ 0 (by decide)

lemma dev_read_store_size (s : Store) (off amt : Nat) (intr fault : Bool) :
    (dev_read s off amt intr fault).store.size = s.size := by
  simp only [dev_read]
  split
  · rfl
  · split
    · rfl
    · split
      · rfl
      · rfl

lemma dev_write_store_size (s : Store) (b : List Nat) (intr fault : Bool) :
    (dev_write s b intr fault).store.size ≤ s.size := by
  simp only [dev_write]
  split
  · exact le_rfl
  next hgt =>
    split
    · exact le_rfl
    · split
      · exact le_rfl
      · simpa using Nat.le_of_not_lt hgt

lemma stepStoreDev_size_zero (s : Store) (op : Op) (h : s.size = 0) :
    (stepStoreDev s op).size = 0 := by
  cases op with
  | opOpen => exact h
  | opRead off amt intr fault =>
      rw [show stepStoreDev s (.opRead off amt intr fault) =
        (dev_read s off amt intr fault).store from rfl, dev_read_store_size]
      exact h
  | opWrite b intr fault =>
      have hle := dev_write_store_size s b intr fault
      rw [show stepStoreDev s (.opWrite b intr fault) =
        (dev_write s b intr fault).store from rfl]
      omega
  | opPoll => exact h
  | opIoctl cmd =>
      simp only [stepStoreDev, dev_ioctl]
      split
      · rfl
      · exact h

lemma runOpsDev_size_zero (ops : List Op) :
    ∀ s : Store, s.size = 0 → (runOpsDev s ops).size = 0 := by
  induction ops with
  | nil => intro s h; exact h
  | cons op ops ih =>
      intro s h
      simpa [runOpsDev, List.foldl_cons] using
        ih (stepStoreDev s op) (stepStoreDev_size_zero s op h)

/-- C9: in the src/mychardev.c variant dev_buf_size is 0 in every
reachable state — it starts at 0, dev_write either rejects the request
or assigns a size no larger than the current one, reads keep the size,
and reset returns it to 0 — so every write of a non-empty payload is
rejected with -EINVAL and every read returns zero bytes and changes
nothing. -/
theorem C9_dev_variant_degenerate (s : Store) (h : ReachableDev s) :
    s.size = 0 ∧
    (∀ b : List Nat, ∀ intr fault : Bool, 0 < b.length →
      (dev_write s b intr fault).ret = .error .invalidArgument) ∧
    (∀ b : List Nat, ∀ intr fault : Bool,
      (dev_write s b intr fault).store.size ≤ s.size) ∧
    (∀ off amt : Nat, ∀ intr fault : Bool,
      dev_read s off amt intr fault = ⟨.ok [], s, off⟩) := by
  obtain ⟨ops, rfl⟩ := h
  have hz : (runOpsDev initStore ops).size = 0 :=
    runOpsDev_size_zero ops initStore rfl
  refine ⟨hz, ?_, ?_, ?_⟩
  · intro b intr fault hb
    simp only [dev_write]
    rw [if_pos (by omega)]
  · intro b intr fault
    exact dev_write_store_size _ b intr fault
  · intro off amt intr fault
    exact dev_read_at_end _ off amt intr fault (by omega)

/-- C9 witness: at the initial state of the src/mychardev.c variant a
one-byte write is rejected and a read delivers nothing. -/
theorem C9_witness :
    (dev_write initStore [7] false false).ret = .error .invalidArgument ∧
    dev_read initStore 0 5 false false = ⟨.ok [], initStore, 0⟩ :=
  ⟨(C9_dev_variant_degenerate initStore ⟨[], rfl⟩).2.1 [7] false false
      (by decide),
    (C9_dev_variant_degenerate initStore ⟨[], rfl⟩).2.2.2 0 5 false false⟩
